import Mathlib

/-!
Verification of the triage-agent node pipeline (state merge, structured
extraction with fallback, urgency router, branch handlers).

The source is a small Python program (`state.py`, `nodes.py`, `graph.py`).
This file gives a shallow embedding of the parts the claims concern:
  * `Json` — Python values produced by `json.loads`,
  * `json.loads` — a strict JSON parser modelling the Python standard
    library's `json.loads` (strict mode) on the JSON grammar,
  * `_parse_json` — the extraction helper of `nodes.py`,
  * `TriageAgentState` — the `TypedDict` state, with every field optional
    (absent key = `none`) and dynamically typed (`Json`), matching the
    runtime dictionary,
  * the node functions, abstracted over the completion-service output
    (each takes the completion text the LLM call returned),
  * the router and the LangGraph per-key merge of partial updates.
-/

/-- A parsed JSON value, as produced by Python's `json.loads`.
Numbers are modelled as rationals (JSON numeric literals are exact
decimal/scientific notation, so every literal denotes a rational);
Python's `int`/`float` distinction is not needed by any claim. -/
inductive Json where
  | null
  | bool (b : Bool)
  | num (q : Rat)
  | str (s : String)
  | arr (elems : List Json)
  | obj (fields : List (String × Json))

mutual

/-- Structural equality of `Json` values, modelling Python `==` on values
returned by `json.loads` (the only comparisons the program performs are
against string literals, where Python `==` is structural equality). -/
def Json.beq : Json → Json → Bool
  | .null, .null => true
  | .bool a, .bool b => a == b
  | .num a, .num b => a == b
  | .str a, .str b => a == b
  | .arr xs, .arr ys => Json.beqSeq xs ys
  | .obj xs, .obj ys => Json.beqMap xs ys
  | _, _ => false

/-- Elementwise `Json.beq` on lists. -/
def Json.beqSeq : List Json → List Json → Bool
  | [], [] => true
  | x :: xs, y :: ys => Json.beq x y && Json.beqSeq xs ys
  | _, _ => false

/-- Elementwise `Json.beq` on key/value lists. -/
def Json.beqMap : List (String × Json) → List (String × Json) → Bool
  | [], [] => true
  | (k1, v1) :: xs, (k2, v2) :: ys => k1 == k2 && Json.beq v1 v2 && Json.beqMap xs ys
  | _, _ => false

end

namespace json

/-- JSON whitespace, as accepted between tokens by Python's `json` module. -/
def jws (c : Char) : Bool :=
  c = ' ' || c = '\t' || c = '\n' || c = '\r'

/-- Skip leading JSON whitespace. -/
def skipWs : List Char → List Char
  | [] => []
  | c :: cs => if jws c then skipWs cs else c :: cs

/-- Value of a hexadecimal digit. -/
def hexVal (c : Char) : Option Nat :=
  if '0' ≤ c ∧ c ≤ '9' then some (c.toNat - '0'.toNat)
  else if 'a' ≤ c ∧ c ≤ 'f' then some (c.toNat - 'a'.toNat + 10)
  else if 'A' ≤ c ∧ c ≤ 'F' then some (c.toNat - 'A'.toNat + 10)
  else none

/-- Body of a JSON string after the opening quote: returns the decoded
characters and the remaining input after the closing quote.  Handles the
JSON escapes; raw control characters are rejected (strict mode).
(`\uXXXX` is decoded to the code point; surrogate-pair recombination is
not modelled — no claim involves it.) -/
def strBody : List Char → Option (List Char × List Char)
  | [] => none
  | '"' :: cs => some ([], cs)
  | '\\' :: 'u' :: h1 :: h2 :: h3 :: h4 :: cs => do
      let a ← hexVal h1
      let b ← hexVal h2
      let c ← hexVal h3
      let d ← hexVal h4
      let (content, rest) ← strBody cs
      pure (Char.ofNat (((a * 16 + b) * 16 + c) * 16 + d) :: content, rest)
  | '\\' :: e :: cs => do
      let decoded ←
        match e with
        | '"' => some '"'
        | '\\' => some '\\'
        | '/' => some '/'
        | 'b' => some '\x08'
        | 'f' => some '\x0c'
        | 'n' => some '\n'
        | 'r' => some '\r'
        | 't' => some '\t'
        | _ => none
      let (content, rest) ← strBody cs
      pure (decoded :: content, rest)
  | c :: cs =>
      if c.toNat < 0x20 then none
      else do
        let (content, rest) ← strBody cs
        pure (c :: content, rest)

/-- Longest prefix of decimal digits, and the rest. -/
def digitSpan : List Char → (List Char × List Char)
  | [] => ([], [])
  | c :: cs =>
      if c.isDigit then
        let (ds, rest) := digitSpan cs
        (c :: ds, rest)
      else ([], c :: cs)

/-- Numeric value of a list of decimal digits. -/
def digitsVal (ds : List Char) : Nat :=
  ds.foldl (fun acc c => acc * 10 + (c.toNat - '0'.toNat)) 0

/-- Parse a JSON number, mirroring the Python `json` number regex
`(-?(?:0|[1-9]\d*))(\.\d+)?([eE][-+]?\d+)?`: the fraction and exponent
groups are consumed only when they match in full. -/
def parseNumber (cs : List Char) : Option (Rat × List Char) :=
  let (neg, cs1) :=
    match cs with
    | '-' :: rest => (true, rest)
    | _ => (false, cs)
  match cs1 with
  | c :: cs2 =>
      if ¬ c.isDigit then none
      else
        -- integer part: `0` or a nonzero digit followed by digits
        let (intDs, rest1) :=
          if c = '0' then ([c], cs2)
          else
            let (ds, r) := digitSpan cs2
            (c :: ds, r)
        -- optional fraction: only consumed when `.` is followed by a digit
        let (fracDs, rest2) :=
          match rest1 with
          | '.' :: d :: r =>
              if d.isDigit then
                let (ds, r') := digitSpan r
                (d :: ds, r')
              else ([], rest1)
          | _ => ([], rest1)
        -- optional exponent: only consumed when digits follow
        let (expSign, expDs, rest3) :=
          match rest2 with
          | e :: r =>
              if e = 'e' ∨ e = 'E' then
                match r with
                | '-' :: d :: r' =>
                    if d.isDigit then
                      let (ds, r'') := digitSpan r'
                      (true, d :: ds, r'')
                    else (false, ([] : List Char), rest2)
                | '+' :: d :: r' =>
                    if d.isDigit then
                      let (ds, r'') := digitSpan r'
                      (false, d :: ds, r'')
                    else (false, ([] : List Char), rest2)
                | d :: r' =>
                    if d.isDigit then
                      let (ds, r'') := digitSpan r'
                      (false, d :: ds, r'')
                    else (false, ([] : List Char), rest2)
                | [] => (false, ([] : List Char), rest2)
              else (false, ([] : List Char), rest2)
          | [] => (false, ([] : List Char), rest2)
        let mantissa : Int := (digitsVal intDs * 10 ^ fracDs.length + digitsVal fracDs : Nat)
        let mantissa : Int := if neg then -mantissa else mantissa
        let e : Nat := digitsVal expDs
        let q : Rat :=
          if expSign then mkRat mantissa (10 ^ (fracDs.length + e))
          else mkRat (mantissa * 10 ^ e) (10 ^ fracDs.length)
        some (q, rest3)
  | [] => none

/-- Insert a key/value pair into an association list the way building a
Python `dict` does: an existing key keeps its position and its value is
overwritten; a new key is appended. -/
def insertKV (kvs : List (String × Json)) (k : String) (v : Json) :
    List (String × Json) :=
  match kvs with
  | [] => [(k, v)]
  | (k', v') :: rest =>
      if k' = k then (k', v) :: rest
      else (k', v') :: insertKV rest k v

/-- Parser mode: a plain value, or the tail of an array / object already
opened (with the elements accumulated so far). -/
inductive PMode where
  | val
  | arrTail (acc : List Json)
  | objTail (acc : List (String × Json))

/-- Recursive-descent JSON parser (fuel-indexed to make the recursion
structural).  In mode `val` it parses one JSON value and returns it with
the unconsumed input; the tail modes continue a partially parsed
container. -/
def parseCore : Nat → PMode → List Char → Option (Json × List Char)
  | 0, _, _ => none
  | fuel + 1, PMode.val, cs =>
      match cs with
      | 'n' :: 'u' :: 'l' :: 'l' :: rest => some (.null, rest)
      | 't' :: 'r' :: 'u' :: 'e' :: rest => some (.bool true, rest)
      | 'f' :: 'a' :: 'l' :: 's' :: 'e' :: rest => some (.bool false, rest)
      | '"' :: rest => do
          let (content, r) ← strBody rest
          pure (Json.str (String.mk content), r)
      | '[' :: rest =>
          let rest := skipWs rest
          match rest with
          | ']' :: r => some (.arr [], r)
          | _ => parseCore fuel (PMode.arrTail []) rest
      | '{' :: rest =>
          let rest := skipWs rest
          match rest with
          | '}' :: r => some (.obj [], r)
          | _ => parseCore fuel (PMode.objTail []) rest
      | _ => do
          let (q, rest) ← parseNumber cs
          pure (Json.num q, rest)
  | fuel + 1, PMode.arrTail acc, cs => do
      let (v, rest) ← parseCore fuel PMode.val cs
      let rest := skipWs rest
      match rest with
      | ',' :: r => parseCore fuel (PMode.arrTail (acc ++ [v])) (skipWs r)
      | ']' :: r => some (.arr (acc ++ [v]), r)
      | _ => none
  | fuel + 1, PMode.objTail acc, cs =>
      match cs with
      | '"' :: rest => do
          let (kcs, rest1) ← strBody rest
          match skipWs rest1 with
          | ':' :: rest2 => do
              let (v, rest3) ← parseCore fuel PMode.val (skipWs rest2)
              let acc := insertKV acc (String.mk kcs) v
              match skipWs rest3 with
              | ',' :: r => parseCore fuel (PMode.objTail acc) (skipWs r)
              | '}' :: r => some (.obj acc, r)
              | _ => none
          | _ => none
      | _ => none

/-- Model of Python's `json.loads` in strict mode: surrounding JSON
whitespace is allowed, the whole input must be consumed, anything else
is a `JSONDecodeError` (modelled as `none`).  (Python additionally
accepts the non-standard `NaN`/`Infinity` literals; no claim involves
them and they are not modelled.) -/
def loads (s : String) : Option Json :=
  let cs := skipWs s.toList
  match parseCore (2 * cs.length + 2) PMode.val cs with
  | some (v, rest) => if skipWs rest = [] then some v else none
  | none => none

end json

/-! ### Python string helpers -/

/-- Whitespace stripped by Python's `str.strip()` (its ASCII whitespace
characters; `str.strip` also strips rarer Unicode whitespace, which no
claim involves). -/
def pyWs (c : Char) : Bool :=
  c = ' ' || c = '\t' || c = '\n' || c = '\r' || c = '\x0b' || c = '\x0c'

/-- Drop leading characters satisfying `pyWs`. -/
def dropWs : List Char → List Char
  | [] => []
  | c :: cs => if pyWs c then dropWs cs else c :: cs

/-- Python `str.strip()`: remove leading and trailing whitespace. -/
def pyStrip (s : String) : String :=
  String.mk ((dropWs (dropWs s.toList).reverse).reverse)

/-- Helper for `pyFind`: scan with a running index. -/
def pyFindAux (c : Char) : List Char → Int → Int
  | [], _ => -1
  | x :: xs, i => if x = c then i else pyFindAux c xs (i + 1)

/-- Python `str.find` for a single-character needle: the index of the
first occurrence, `-1` when absent. -/
def pyFind (s : String) (c : Char) : Int := pyFindAux c s.toList 0

/-- Helper for `pyRfind`: scan keeping the latest hit. -/
def pyRfindAux (c : Char) : List Char → Int → Int → Int
  | [], _, best => best
  | x :: xs, i, best => pyRfindAux c xs (i + 1) (if x = c then i else best)

/-- Python `str.rfind` for a single-character needle: the index of the
last occurrence, `-1` when absent. -/
def pyRfind (s : String) (c : Char) : Int := pyRfindAux c s.toList 0 (-1)

/-- Python slice `s[a:b]` for `0 ≤ a ≤ b ≤ len s` — the only case the
program exercises (`a` is a successful `find` index, `b` is `rfind + 1`). -/
def pySlice (s : String) (a b : Int) : String :=
  String.mk ((s.toList.take b.toNat).drop a.toNat)

/-! ### `_parse_json` (`nodes.py`) -/

/-- The brace-substring attempt of `_parse_json` (`nodes.py`):
`start = text.find("{")`, `end = text.rfind("}") + 1`, and the slice
`text[start:end]` provided `start != -1 and end > start`. -/
def braceSlice (text : String) : Option String :=
  let start := pyFind text '\x7b'
  let e := pyRfind text '\x7d' + 1
  if start ≠ -1 ∧ e > start then some (pySlice text start e) else none

/-- Function `_parse_json` (`nodes.py`): extract JSON from LLM response text.
Both `json.loads` attempts are wrapped in `try/except JSONDecodeError`
in the source, so the only possible outcomes are a parsed value or the
fallback; totality of this function is the embedded form of the
never-raises guarantee. -/
def _parse_json (text : String) (fallback : Json) : Json :=
  let text := pyStrip text
  match json.loads text with
  | some v => v
  | none =>
      match braceSlice text with
      | some sub =>
          match json.loads sub with
          | some v => v
          | none => fallback
      | none => fallback

/-- Python `dict` lookup on the association list built by the parser
(keys are unique by construction of `json.insertKV`). -/
def lookupKV : List (String × Json) → String → Option Json
  | [], _ => none
  | (k, v) :: rest, key => if k = key then some v else lookupKV rest key

/-- Python attribute access `value.get(key, default)`: meaningful for
`dict` values; any other value returned by `json.loads` has no `get`
attribute, so the access raises `AttributeError`. -/
def dictGet (v : Json) (key : String) (default : Json) : Except String Json :=
  match v with
  | Json.obj kvs => .ok ((lookupKV kvs key).getD default)
  | _ => .error "AttributeError"

/-! ### `TriageAgentState` (`state.py`) and the LangGraph merge -/

/-- State `TriageAgentState` (`state.py`): at runtime a Python dictionary with
the `TypedDict` keys.  Each field is `Option Json`: `none` models an
absent key, and present values are dynamically typed (`TypedDict`
annotations are not enforced at runtime — nodes store whatever
`json.loads` produced). -/
structure TriageAgentState where
  patient_message : Option Json := none
  patient_id : Option Json := none
  patient_age : Option Json := none
  known_conditions : Option Json := none
  symptoms : Option Json := none
  duration : Option Json := none
  severity_score : Option Json := none
  urgency_level : Option Json := none
  red_flags : Option Json := none
  confidence : Option Json := none
  response : Option Json := none
  action_taken : Option Json := none
  escalation_reason : Option Json := none

/-- One key of a state merge: the update's value when the update carries
the key, the previous value otherwise. -/
def updKey (new old : Option Json) : Option Json :=
  match new with
  | some v => some v
  | none => old

/-- The per-step state merge performed by the engine built in
`build_graph` (`graph.py`) — LangGraph's default channel semantics: each
key of the node's partial update overwrites the identically-named state
key, all other keys are untouched. -/
def mergeUpdate (s u : TriageAgentState) : TriageAgentState :=
  { patient_message := updKey u.patient_message s.patient_message,
    patient_id := updKey u.patient_id s.patient_id,
    patient_age := updKey u.patient_age s.patient_age,
    known_conditions := updKey u.known_conditions s.known_conditions,
    symptoms := updKey u.symptoms s.symptoms,
    duration := updKey u.duration s.duration,
    severity_score := updKey u.severity_score s.severity_score,
    urgency_level := updKey u.urgency_level s.urgency_level,
    red_flags := updKey u.red_flags s.red_flags,
    confidence := updKey u.confidence s.confidence,
    response := updKey u.response s.response,
    action_taken := updKey u.action_taken s.action_taken,
    escalation_reason := updKey u.escalation_reason s.escalation_reason }

/-! ### Router (`graph.py`) -/

/-- Router `route_by_urgency` (`graph.py`): route to a handler based on the
urgency level.  `state.get("urgency_level", "ROUTINE")` followed by
Python `==` against the two recognized tags. -/
def route_by_urgency (state : TriageAgentState) : String :=
  let level := state.urgency_level.getD (Json.str "ROUTINE")
  if Json.beq level (Json.str "EMERGENCY") then "emergency"
  else if Json.beq level (Json.str "URGENT") then "urgent"
  else "routine"

/-! ### Extraction nodes (`nodes.py`), abstracted over the completion
service: each takes the completion text the LLM call returned
(`response.content`); prompt construction and the call itself are
external.  The result is the node's partial update, or the uncaught
Python exception. -/

/-- The fallback record passed by `parse_patient_message`. -/
def parseFallback : Json :=
  Json.obj [("symptoms", Json.arr [Json.str "unable to parse"]),
            ("duration", Json.str "not specified"),
            ("severity_cues", Json.arr [])]

/-- Node `parse_patient_message` (`nodes.py`): extract symptoms, duration, and
severity cues from free text; only symptoms and duration are returned in
the update. -/
def parse_patient_message (completion : String) : Except String TriageAgentState :=
  let parsed := _parse_json completion parseFallback
  match dictGet parsed "symptoms" (Json.arr []) with
  | .error e => .error e
  | .ok symptoms =>
      match dictGet parsed "duration" (Json.str "not specified") with
      | .error e => .error e
      | .ok duration => .ok { symptoms := some symptoms, duration := some duration }

/-- The fallback record passed by `assess_urgency` (`0.3` is the Python
float literal, exact as a rational). -/
def assessFallback : Json :=
  Json.obj [("severity_score", Json.num 6),
            ("urgency_level", Json.str "URGENT"),
            ("red_flags", Json.arr []),
            ("confidence", Json.num (mkRat 3 10))]

/-- Node `assess_urgency` (`nodes.py`): evaluate urgency with red-flag
detection and severity scoring. -/
def assess_urgency (completion : String) : Except String TriageAgentState :=
  let assessed := _parse_json completion assessFallback
  match dictGet assessed "severity_score" (Json.num 5) with
  | .error e => .error e
  | .ok severity_score =>
      match dictGet assessed "urgency_level" (Json.str "URGENT") with
      | .error e => .error e
      | .ok urgency_level =>
          match dictGet assessed "red_flags" (Json.arr []) with
          | .error e => .error e
          | .ok red_flags =>
              match dictGet assessed "confidence" (Json.num (mkRat 1 2)) with
              | .error e => .error e
              | .ok confidence =>
                  .ok { severity_score := some severity_score,
                        urgency_level := some urgency_level,
                        red_flags := some red_flags,
                        confidence := some confidence }

/-! ### `urgent_handler` (`nodes.py`) and the booking-slot computation -/

/-- A Python `datetime`, reduced to what `urgent_handler` observes: an
absolute day number (`.date()`; `timedelta(days=1)` adds one) and the
time of day in microseconds since midnight. -/
structure PyDateTime where
  day : Int
  tod : Nat
deriving DecidableEq

/-- Python `datetime` comparison `a <= b`: lexicographic on (date, time of day). -/
def PyDateTime.le (a b : PyDateTime) : Prop :=
  a.day < b.day ∨ (a.day = b.day ∧ a.tod ≤ b.tod)

instance (a b : PyDateTime) : Decidable (PyDateTime.le a b) := by
  unfold PyDateTime.le; infer_instance

/-- Microseconds since midnight of the fixed 15:00 target hour. -/
def targetTod : Nat := 15 * 3600 * 1000000

/-- Python `now.replace(hour=15, minute=0, second=0, microsecond=0)`. -/
def replace15 (now : PyDateTime) : PyDateTime := ⟨now.day, targetTod⟩

/-- The slot computed by `urgent_handler`: 15:00 of the current day, or
15:00 of the next day when the former is not strictly in the future
(`if slot <= now: slot += timedelta(days=1)`). -/
def bookingSlot (now : PyDateTime) : PyDateTime :=
  let slot := replace15 now
  if PyDateTime.le slot now then ⟨slot.day + 1, slot.tod⟩ else slot

/-- Two-digit zero-padded decimal field, as `strftime` prints. -/
def pad2 (n : Nat) : String := if n < 10 then "0" ++ toString n else toString n

/-- Format `strftime("%I:%M %p")`: zero-padded 12-hour clock hour, minute, and
AM/PM marker. -/
def fmtIMp (t : PyDateTime) : String :=
  let h := t.tod / 3600000000
  let m := t.tod / 60000000 % 60
  let h12 := if h % 12 = 0 then 12 else h % 12
  pad2 h12 ++ ":" ++ pad2 m ++ " " ++ (if h < 12 then "AM" else "PM")

/-- Python `str()` of a parsed value, as interpolated by the handlers'
f-strings.  Integral numbers print as Python ints do.  Non-integral
numbers are Python floats whose shortest-round-trip formatting is not
reproduced (rendered as `num/den`), and list/dict reprs are abbreviated:
no claim depends on those renderings. -/
def pyStr : Json → String
  | Json.null => "None"
  | Json.bool b => if b then "True" else "False"
  | Json.num q => if q.den = 1 then toString q.num else toString q.num ++ "/" ++ toString q.den
  | Json.str s => s
  | Json.arr _ => "[...]"
  | Json.obj _ => "\x7b...\x7d"

/-- Handler `urgent_handler` (`nodes.py`), abstracted over the clock: `now` is
the value of `datetime.now()`.  The `[SIMULATED]` prints are external
side effects with no state impact.  The `strftime` format string is
`"%I:%M %p today"` when the slot stayed on the current date and
`"%I:%M %p tomorrow"` otherwise (`slot.date() == now.date()`). -/
def urgent_handler (now : PyDateTime) (state : TriageAgentState) : TriageAgentState :=
  let slot := bookingSlot now
  let slot_str := fmtIMp slot ++ (if slot.day = now.day then " today" else " tomorrow")
  { action_taken := some (Json.str "BOOK"),
    escalation_reason := some (Json.str
      ("Same-day appointment booked for " ++ slot_str ++ ". Severity: "
        ++ pyStr (state.severity_score.getD (Json.str "N/A")) ++ "/10.")) }

/-! ### Helper lemmas -/

/-- When the strict parse of the stripped text succeeds, `_parse_json`
returns the parsed value. -/
theorem parse_ok_id (text : String) (fallback v : Json)
    (h : json.loads (pyStrip text) = some v) :
    _parse_json text fallback = v := by
  simp only [_parse_json, h]

/-- When both parse attempts fail (the second one being vacuous when no
valid brace pair exists), `_parse_json` returns the fallback. -/
theorem parse_fail_fallback (text : String) (fallback : Json)
    (h1 : json.loads (pyStrip text) = none)
    (h2 : match braceSlice (pyStrip text) with
          | some sub => json.loads sub = none
          | none => True) :
    _parse_json text fallback = fallback := by
  simp only [_parse_json, h1]
  cases hb : braceSlice (pyStrip text) with
  | none => rfl
  | some sub =>
      have h2' : json.loads sub = none := by rw [hb] at h2; exact h2
      simp only [h2']

/-- Comparison `Json.beq` against a string literal decides equality with it. -/
theorem Json.beq_str_iff (v : Json) (t : String) :
    Json.beq v (Json.str t) = true ↔ v = Json.str t := by
  cases v <;> simp [Json.beq]

example : json.loads "null" = some Json.null := rfl
example : json.loads " [1, 2] " = some (Json.arr [Json.num 1, Json.num 2]) := rfl
example : json.loads "\x7b\"a\": 0.5\x7d" = some (Json.obj [("a", Json.num (0.5 : Rat))]) := by
  with_unfolding_all rfl
example : json.loads "\x7b" = none := rfl
example : json.loads "01" = none := rfl
example : json.loads "-2e2" = some (Json.num (-200)) := by with_unfolding_all rfl

/-! ### Claim theorems -/

/-- C1: for every completion text that fails all parsing attempts (strict
parse of the stripped whole string, and strict parse of the
first-opening-brace to last-closing-brace substring when such braces
exist), `_parse_json` returns exactly the caller-supplied fallback record
— identity, not a merged or partial record — and, being total, never
propagates a parse error to its caller. -/
theorem parse_json_unparseable_returns_fallback (text : String) (fallback : Json)
    (h1 : json.loads (pyStrip text) = none)
    (h2 : match braceSlice (pyStrip text) with
          | some sub => json.loads sub = none
          | none => True) :
    _parse_json text fallback = fallback :=
  parse_fail_fallback text fallback h1 h2

/-- Witness for C1: a completion with a brace pair whose interior is not
valid JSON fails both attempts and degrades to the fallback. -/
theorem parse_json_unparseable_returns_fallback_witness :
    _parse_json " Sure! \x7bseverity: high\x7d " (Json.str "FB") = Json.str "FB" :=
  parse_json_unparseable_returns_fallback " Sure! \x7bseverity: high\x7d "
    (Json.str "FB") rfl rfl

/-- C4: for every completion text that, after stripping leading and
trailing whitespace, is valid JSON, `_parse_json` returns the parsed
record unchanged; the fallback is never consulted (the result does not
depend on it). -/
theorem parse_json_valid_returns_parsed (text : String) (fallback v : Json)
    (h : json.loads (pyStrip text) = some v) :
    _parse_json text fallback = v :=
  parse_ok_id text fallback v h

/-- Witness for C4: a whitespace-padded JSON object parses to itself,
for two different fallbacks. -/
theorem parse_json_valid_returns_parsed_witness :
    _parse_json "  \x7b\"a\": 1\x7d  " Json.null = Json.obj [("a", Json.num 1)] ∧
    _parse_json "  \x7b\"a\": 1\x7d  " (Json.str "FB") = Json.obj [("a", Json.num 1)] :=
  ⟨parse_json_valid_returns_parsed _ _ _ rfl, parse_json_valid_returns_parsed _ _ _ rfl⟩

/-- C5: for every completion text whose whole-string parse fails but
which contains a first opening brace and a last closing brace with the
closing index after the opening index, and whose inclusive substring
between them parses strictly, `_parse_json` returns that embedded
record. -/
theorem parse_json_embedded_object_rescue (text sub : String) (fallback v : Json)
    (h1 : json.loads (pyStrip text) = none)
    (h2 : braceSlice (pyStrip text) = some sub)
    (h3 : json.loads sub = some v) :
    _parse_json text fallback = v := by
  simp only [_parse_json, h1, h2, h3]

/-- Witness for C5: prose before and after an embedded object. -/
theorem parse_json_embedded_object_rescue_witness :
    _parse_json "Here you go: \x7b\"a\": 1\x7d — hope this helps" Json.null
      = Json.obj [("a", Json.num 1)] :=
  parse_json_embedded_object_rescue _ "\x7b\"a\": 1\x7d" _ _ rfl rfl rfl

/-- C2: `route_by_urgency` is a pure, deterministic, total function of
the urgency-classification field (it is a Lean function of the state
alone): it maps `EMERGENCY` to the escalate branch, `URGENT` to the book
branch, and any other value — an absent field (defaulting to `ROUTINE`),
or any unrecognized value including the empty string — to the self-care
branch. -/
theorem route_by_urgency_total_cases (s : TriageAgentState) :
    (s.urgency_level = some (Json.str "EMERGENCY") → route_by_urgency s = "emergency") ∧
    (s.urgency_level = some (Json.str "URGENT") → route_by_urgency s = "urgent") ∧
    (s.urgency_level = none → route_by_urgency s = "routine") ∧
    (∀ v, s.urgency_level = some v → v ≠ Json.str "EMERGENCY" → v ≠ Json.str "URGENT" →
      route_by_urgency s = "routine") := by
  refine ⟨?_, ?_, ?_, ?_⟩
  · intro h; simp [route_by_urgency, h, Json.beq]
  · intro h; simp [route_by_urgency, h, Json.beq]
  · intro h; simp [route_by_urgency, h, Json.beq]
  · intro v hv hne hnu
    have he : Json.beq v (Json.str "EMERGENCY") = false := by
      cases h : Json.beq v (Json.str "EMERGENCY")
      · rfl
      · exact absurd ((Json.beq_str_iff v _).mp h) hne
    have hu : Json.beq v (Json.str "URGENT") = false := by
      cases h : Json.beq v (Json.str "URGENT")
      · rfl
      · exact absurd ((Json.beq_str_iff v _).mp h) hnu
    simp [route_by_urgency, hv, he, hu]

/-- Witness for C2: the three branch tags, an absent field, an empty
string, and a garbled tag. -/
theorem route_by_urgency_total_cases_witness :
    route_by_urgency { urgency_level := some (Json.str "EMERGENCY") } = "emergency" ∧
    route_by_urgency { urgency_level := some (Json.str "URGENT") } = "urgent" ∧
    route_by_urgency {} = "routine" ∧
    route_by_urgency { urgency_level := some (Json.str "") } = "routine" ∧
    route_by_urgency { urgency_level := some (Json.str "very urgent!!") } = "routine" :=
  ⟨(route_by_urgency_total_cases _).1 rfl,
   (route_by_urgency_total_cases _).2.1 rfl,
   (route_by_urgency_total_cases _).2.2.1 rfl,
   (route_by_urgency_total_cases _).2.2.2 (Json.str "") rfl (by simp) (by simp),
   (route_by_urgency_total_cases _).2.2.2 (Json.str "very urgent!!") rfl
     (by simp) (by simp)⟩

/-- C3: for every completion text whose extraction fails entirely,
`assess_urgency`'s partial update carries the fallback assessment:
severity score 6, urgency classification `URGENT` (in particular neither
`ROUTINE` nor `EMERGENCY`), empty red-flag list, and confidence 0.3. -/
theorem assess_urgency_extraction_failure_update (completion : String)
    (h1 : json.loads (pyStrip completion) = none)
    (h2 : match braceSlice (pyStrip completion) with
          | some sub => json.loads sub = none
          | none => True) :
    assess_urgency completion =
      .ok { severity_score := some (Json.num 6),
            urgency_level := some (Json.str "URGENT"),
            red_flags := some (Json.arr []),
            confidence := some (Json.num (mkRat 3 10)) } := by
  have h := parse_fail_fallback completion assessFallback h1 h2
  simp only [assess_urgency]
  rw [h]
  exact rfl

/-- Witness for C3: a free-text completion with no parseable JSON. -/
theorem assess_urgency_extraction_failure_update_witness :
    assess_urgency "I think this is urgent." =
      .ok { severity_score := some (Json.num 6),
            urgency_level := some (Json.str "URGENT"),
            red_flags := some (Json.arr []),
            confidence := some (Json.num (mkRat 3 10)) } :=
  assess_urgency_extraction_failure_update "I think this is urgent." rfl True.intro

/-- C7: for every completion text whose extraction fails entirely,
`parse_patient_message`'s partial update sets the symptom list to
`["unable to parse"]` and the duration to `"not specified"`; and for
every completion text whose update is produced at all, the update sets
only the symptom list and duration keys — in particular severity cues
are never persisted into the state. -/
theorem parse_patient_message_update_spec :
    (∀ completion : String,
      json.loads (pyStrip completion) = none →
      (match braceSlice (pyStrip completion) with
       | some sub => json.loads sub = none
       | none => True) →
      parse_patient_message completion =
        .ok { symptoms := some (Json.arr [Json.str "unable to parse"]),
              duration := some (Json.str "not specified") }) ∧
    (∀ (completion : String) (u : TriageAgentState),
      parse_patient_message completion = .ok u →
      u.patient_message = none ∧ u.patient_id = none ∧ u.patient_age = none ∧
      u.known_conditions = none ∧ u.severity_score = none ∧ u.urgency_level = none ∧
      u.red_flags = none ∧ u.confidence = none ∧ u.response = none ∧
      u.action_taken = none ∧ u.escalation_reason = none) := by
  constructor
  · intro completion h1 h2
    have h := parse_fail_fallback completion parseFallback h1 h2
    simp only [parse_patient_message]
    rw [h]
    exact rfl
  · intro completion u h
    simp only [parse_patient_message] at h
    cases hp : _parse_json completion parseFallback <;> rw [hp] at h <;>
      simp only [dictGet] at h
    case obj kvs =>
      cases h
      exact ⟨rfl, rfl, rfl, rfl, rfl, rfl, rfl, rfl, rfl, rfl, rfl⟩
    all_goals exact Except.noConfusion h

/-- Witness for C7: the fallback update on an unparseable completion, and
the only-these-keys property read off it. -/
theorem parse_patient_message_update_spec_witness :
    parse_patient_message "sorry, cannot help" =
      .ok { symptoms := some (Json.arr [Json.str "unable to parse"]),
            duration := some (Json.str "not specified") } ∧
    ∀ u : TriageAgentState,
      parse_patient_message "sorry, cannot help" = .ok u → u.severity_score = none :=
  ⟨parse_patient_message_update_spec.1 "sorry, cannot help" rfl True.intro,
   fun u h => ((parse_patient_message_update_spec.2 "sorry, cannot help" u h).2.2.2.2.1)⟩

/-- Helper for C8: overwriting a key twice with the same update value is
the same as overwriting it once. -/
theorem updKey_idem (n o : Option Json) : updKey n (updKey n o) = updKey n o := by
  cases n <;> rfl

/-- C8: the state merge is idempotent per key — for every state and every
partial update, merging the same partial update twice (each update key
overwriting the identically-named state key, all other keys untouched)
yields the same state as merging it once. -/
theorem state_merge_idempotent_per_key (s u : TriageAgentState) :
    mergeUpdate (mergeUpdate s u) u = mergeUpdate s u := by
  simp only [mergeUpdate, updKey_idem]

/-- Helper for C6: `fmtIMp` ignores the day, and at the 15:00 target time
of day it prints `03:00 PM`. -/
theorem fmtIMp_target (d : Int) : fmtIMp ⟨d, targetTod⟩ = "03:00 PM" := by
  have h : fmtIMp ⟨d, targetTod⟩ = fmtIMp ⟨0, targetTod⟩ := rfl
  rw [h]
  exact rfl

/-- C6: for every current time, `urgent_handler` computes the booking
slot at the fixed 15:00 target hour: when that hour has already elapsed
for the current day (time of day at or past 15:00, so that the 15:00
slot is not strictly in the future) the slot's day advances by exactly
one day, otherwise it stays on the current day; the partial update sets
the action taken to `BOOK` and a detail string reporting the chosen slot
in human-readable form (with the matching today/tomorrow label) and the
severity score. -/
theorem urgent_handler_booking_slot_spec (now : PyDateTime) (s : TriageAgentState) :
    (bookingSlot now).tod = targetTod ∧
    (targetTod ≤ now.tod → (bookingSlot now).day = now.day + 1) ∧
    (now.tod < targetTod → (bookingSlot now).day = now.day) ∧
    (urgent_handler now s).action_taken = some (Json.str "BOOK") ∧
    (urgent_handler now s).escalation_reason = some (Json.str
      ("Same-day appointment booked for 03:00 PM "
        ++ (if targetTod ≤ now.tod then "tomorrow" else "today")
        ++ ". Severity: " ++ pyStr (s.severity_score.getD (Json.str "N/A"))
        ++ "/10.")) := by
  have hle : PyDateTime.le (replace15 now) now ↔ targetTod ≤ now.tod := by
    simp [PyDateTime.le, replace15]
  by_cases hc : targetTod ≤ now.tod
  · have hb : bookingSlot now = ⟨now.day + 1, targetTod⟩ := by
      simp only [bookingSlot]
      rw [if_pos (hle.mpr hc)]
      exact rfl
    have hday : ¬((now.day : Int) + 1 = now.day) := by omega
    refine ⟨by rw [hb], fun _ => by rw [hb], fun h => absurd hc (not_le.mpr h), rfl, ?_⟩
    simp only [urgent_handler]
    rw [hb,
      if_neg (show ¬(({ day := now.day + 1, tod := targetTod } : PyDateTime).day = now.day)
        from fun hcontra => hday hcontra),
      if_pos hc, fmtIMp_target]
    exact rfl
  · have hb : bookingSlot now = ⟨now.day, targetTod⟩ := by
      simp only [bookingSlot]
      rw [if_neg (fun hle' => hc (hle.mp hle'))]
      exact rfl
    refine ⟨by rw [hb], fun h => absurd h hc, fun _ => by rw [hb], rfl, ?_⟩
    simp only [urgent_handler]
    rw [hb,
      if_pos (show ({ day := now.day, tod := targetTod } : PyDateTime).day = now.day from rfl),
      if_neg hc, fmtIMp_target]
    exact rfl

/-- Witness for C6: at 16:00 the slot rolls to 15:00 the next day; at
08:20 it stays at 15:00 the same day. -/
theorem urgent_handler_booking_slot_spec_witness :
    (bookingSlot ⟨100, 57600000000⟩).day = 100 + 1 ∧
    (bookingSlot ⟨100, 30000000000⟩).day = 100 ∧
    (urgent_handler ⟨100, 57600000000⟩
        { severity_score := some (Json.num 5) }).escalation_reason
      = some (Json.str
          ("Same-day appointment booked for 03:00 PM "
            ++ "tomorrow" ++ ". Severity: "
            ++ pyStr (some (Json.num 5) |>.getD (Json.str "N/A")) ++ "/10.")) :=
  ⟨(urgent_handler_booking_slot_spec ⟨100, 57600000000⟩ {}).2.1 (by decide),
   (urgent_handler_booking_slot_spec ⟨100, 30000000000⟩ {}).2.2.1 (by decide),
   by
     have h := (urgent_handler_booking_slot_spec ⟨100, 57600000000⟩
       { severity_score := some (Json.num 5) }).2.2.2.2
     rw [if_pos (by decide : targetTod ≤ (57600000000 : Nat))] at h
     exact h⟩

/-- C9 (implicit, from the source): for a completion text that is valid
JSON but not a JSON object — `"[]"` or `"42"` — `_parse_json` returns the
parsed non-dict value instead of the caller's fallback record, and
`parse_patient_message` and `assess_urgency` then raise `AttributeError`
when reading fields from it (`.get` on a non-dict) rather than degrading
to their fallback records: node-level extraction is not total over all
completion texts. -/
theorem nonobject_completion_attribute_error :
    _parse_json "[]" parseFallback = Json.arr [] ∧
    _parse_json "42" parseFallback = Json.num 42 ∧
    _parse_json "[]" assessFallback = Json.arr [] ∧
    parse_patient_message "[]" = .error "AttributeError" ∧
    parse_patient_message "42" = .error "AttributeError" ∧
    assess_urgency "[]" = .error "AttributeError" ∧
    assess_urgency "42" = .error "AttributeError" :=
  ⟨rfl, rfl, rfl, rfl, rfl, rfl, rfl⟩

/-- C10: for every completion text whose extraction yields a valid JSON
object (by either parsing attempt), `assess_urgency` applies per-key
defaults that differ from its fallback record: a missing
`severity_score` yields 5 (not 6) and a missing `confidence` yields 0.5
(not 0.3), while a missing `urgency_level` still yields `URGENT` and a
missing `red_flags` still yields the empty list. -/
theorem assess_urgency_missing_key_defaults (completion : String)
    (kvs : List (String × Json))
    (hp : _parse_json completion assessFallback = Json.obj kvs) :
    ∃ u, assess_urgency completion = .ok u ∧
      (lookupKV kvs "severity_score" = none → u.severity_score = some (Json.num 5)) ∧
      (lookupKV kvs "urgency_level" = none → u.urgency_level = some (Json.str "URGENT")) ∧
      (lookupKV kvs "red_flags" = none → u.red_flags = some (Json.arr [])) ∧
      (lookupKV kvs "confidence" = none → u.confidence = some (Json.num (mkRat 1 2))) := by
  refine ⟨{ severity_score := some ((lookupKV kvs "severity_score").getD (Json.num 5)),
            urgency_level := some ((lookupKV kvs "urgency_level").getD (Json.str "URGENT")),
            red_flags := some ((lookupKV kvs "red_flags").getD (Json.arr [])),
            confidence := some ((lookupKV kvs "confidence").getD (Json.num (mkRat 1 2))) },
          ?_, ?_, ?_, ?_, ?_⟩
  · simp only [assess_urgency, hp, dictGet]
  · intro hn; simp [hn]
  · intro hn; simp [hn]
  · intro hn; simp [hn]
  · intro hn; simp [hn]

/-- Witness for C10: the empty JSON object misses every key and yields
the per-key defaults. -/
theorem assess_urgency_missing_key_defaults_witness :
    ∃ u, assess_urgency "\x7b\x7d" = .ok u ∧
      u.severity_score = some (Json.num 5) ∧
      u.urgency_level = some (Json.str "URGENT") ∧
      u.red_flags = some (Json.arr []) ∧
      u.confidence = some (Json.num (mkRat 1 2)) := by
  obtain ⟨u, h1, h2, h3, h4, h5⟩ := assess_urgency_missing_key_defaults "\x7b\x7d" [] rfl
  exact ⟨u, h1, h2 rfl, h3 rfl, h4 rfl, h5 rfl⟩
